import Mathlib

/-
Verification development for the ThreatPilot remediation service.

Shallow embedding of:
  - src/index.js          : the top-level Remediation Orchestrator
      (normalizeAction, priorityFromSeverity, the POST "/" dispatch)
  - src/unnamed/part_001  : the Temporary Block Ledger variant built on the
      in-memory tempBlocks map with per-IP expiry timers
      (getTempBanMinutes, the block_ip / unblock_ip / list_blocked handlers
       and the setTimeout expiry callback)

External collaborators (Cloudflare enforcement backend, Jira ticketing,
Slack notification) are modelled as explicit state (the backend rule list)
or as oracle values (Except results) passed to the handler, and the set of
collaborator invocations is returned as an explicit effect list.
-/

namespace ThreatPilot

/-- The alias map of normalizeAction in src/index.js (lines 17-29),
entry for entry. -/
def aliasTable : List (String × String) :=
  [("block", "block"),
   ("block_ip", "block"),
   ("unblock_ip", "unblock"),
   ("restart_service", "restart"),
   ("scale_service", "scale"),
   ("rollback_service", "rollback"),
   ("drain_service", "drain"),
   ("trigger_alert", "notify"),
   ("notify_team", "notify")]

/-- normalizeAction from src/index.js lines 16-32: map[action] || action. -/
def normalizeAction (action : String) : String :=
  match aliasTable.find? (fun p => p.1 == action) with
  | some p => p.2
  | none => action

/-- The canonical action vocabulary of the spec (section 3). -/
def canonicalActions : List String :=
  ["block", "unblock", "list_blocked", "restart", "scale", "rollback", "drain", "notify"]

/-- priorityFromSeverity from src/index.js lines 37-42. -/
def priorityFromSeverity (severity : String) : String :=
  if severity == "critical" then "Highest"
  else if severity == "high" then "High"
  else if severity == "medium" then "Medium"
  else "Low"

/-- getTempBanMinutes from src/unnamed/part_001 lines 486-490.
Returns the temporary block duration in minutes; 0 encodes "permanent,
no auto-expiry" (the code's comment: high / critical -> permanent). -/
def getTempBanMinutes (severity : String) : Nat :=
  if severity == "low" then 1
  else if severity == "medium" then 2
  else 0

/-- target object of a RemediationRequest (target.ip / target.service /
target.replicas); a field is none when absent from the JSON body. -/
structure Target where
  ip : Option String
  service : Option String
  replicas : Option Nat
deriving DecidableEq

/-- Inbound RemediationRequest body as destructured by the handlers;
none models an absent JSON field. -/
structure Request where
  action : Option String
  severity : Option String
  issue : Option String
  description : Option String
  target : Target
  blockFlag : Option Bool
deriving DecidableEq

/-- JavaScript truthiness of an optional string field:
undefined and the empty string are falsy. -/
def truthyS : Option String → Bool
  | none => false
  | some s => s != ""

/-- The response shapes literally returned by the handlers: one constructor
per res.json / res.status(...).json call site in src/index.js and the
part_001 ledger variant. -/
inductive Response where
  | clientError (msg : String)
  | serverError (msg : String)
  | blockOk (ip ruleId : String)
  | pendingApproval (action service : String) (replicas : Option Nat) (ticket : String)
  | notifyOk
  | tempBlockOk (ip severity : String) (durationMinutes : Nat)
  | permBlockOk (ip severity : String)
  | skippedResp (ip severity : String)
  | notFoundResp
  | unblockOk (ip : String)
  | listOk (ips : List String)
deriving DecidableEq

/-- A collaborator invocation performed by the orchestrator. -/
inductive Effect where
  | cfInstall (ip : String)
  | jiraCreate (summary priority : String)
  | slackSend
deriving DecidableEq

/-- The POST "/" dispatch of src/index.js lines 87-233.

cfResult is the outcome of the Cloudflare firewall-rule creation
(ok ruleId or a thrown error message), jiraResult the outcome of
createJiraTicket (ok ticketKey or error), slackResult the outcome of
alertSRESlack.  A thrown collaborator error is caught by the outer
try/catch and surfaces as a 500 with the error message (line 231).
The second component lists the collaborator calls that were made. -/
def handlePost (req : Request) (cfResult : Except String String)
    (jiraResult : Except String String) (slackResult : Except String Unit) :
    Response × List Effect :=
  if !truthyS req.action || !truthyS req.severity
      || !truthyS req.issue || !truthyS req.description then
    (.clientError "Missing required fields: action, severity, issue, description", [])
  else
    let rawAction := req.action.getD ""
    let severity := req.severity.getD ""
    let action := normalizeAction rawAction
    let ip := req.target.ip
    let service := req.target.service
    let replicas := req.target.replicas
    if action == "block" then
      if !truthyS ip then (.clientError "Missing target.ip", [])
      else
        match cfResult with
        | .ok ruleId => (.blockOk (ip.getD "") ruleId, [.cfInstall (ip.getD "")])
        | .error e => (.serverError e, [.cfInstall (ip.getD "")])
    else if action == "restart" then
      if !truthyS service then (.clientError "Missing target.service", [])
      else
        match jiraResult with
        | .ok jira =>
            (.pendingApproval "restart" (service.getD "") none jira,
             [.jiraCreate ("[ThreatPilot] Restart Service " ++ service.getD "")
                (priorityFromSeverity severity)])
        | .error e =>
            (.serverError e,
             [.jiraCreate ("[ThreatPilot] Restart Service " ++ service.getD "")
                (priorityFromSeverity severity)])
    else if action == "scale" then
      if !truthyS service then (.clientError "Missing target.service", [])
      else
        match jiraResult with
        | .ok jira =>
            (.pendingApproval "scale" (service.getD "") replicas jira,
             [.jiraCreate ("[ThreatPilot] Scale Service " ++ service.getD "")
                (priorityFromSeverity severity)])
        | .error e =>
            (.serverError e,
             [.jiraCreate ("[ThreatPilot] Scale Service " ++ service.getD "")
                (priorityFromSeverity severity)])
    else if action == "rollback" then
      if !truthyS service then (.clientError "Missing target.service", [])
      else
        match jiraResult with
        | .ok jira =>
            (.pendingApproval "rollback" (service.getD "") none jira,
             [.jiraCreate ("[ThreatPilot] Rollback Service " ++ service.getD "")
                (priorityFromSeverity severity)])
        | .error e =>
            (.serverError e,
             [.jiraCreate ("[ThreatPilot] Rollback Service " ++ service.getD "")
                (priorityFromSeverity severity)])
    else if action == "drain" then
      if !truthyS service then (.clientError "Missing target.service", [])
      else
        match jiraResult with
        | .ok jira =>
            (.pendingApproval "drain" (service.getD "") none jira,
             [.jiraCreate ("[ThreatPilot] Drain Service " ++ service.getD "")
                (priorityFromSeverity severity)])
        | .error e =>
            (.serverError e,
             [.jiraCreate ("[ThreatPilot] Drain Service " ++ service.getD "")
                (priorityFromSeverity severity)])
    else if action == "notify" then
      match slackResult with
      | .ok _ => (.notifyOk, [.slackSend])
      | .error e => (.serverError e, [.slackSend])
    else
      (.clientError ("Unsupported action: " ++ rawAction), [])

/-
Temporary Block Ledger: the tempBlocks variant of src/unnamed/part_001
(lines 444-731).  The mutable pieces of that program are modelled as one
explicit state:
  - cfRules      : the enforcement backend's rule list (Cloudflare zone);
  - cfCounter    : source of the opaque rule ids the backend returns;
  - tempBlocks   : the per-IP ledger object (a JS object has at most one
                   property per key, hence a partial map);
  - liveTimers   : the timers armed by setTimeout and not yet cancelled by
                   clearTimeout nor fired;
  - timerCounter : source of the opaque timeout handles.
-/

/-- A firewall access rule as the backend stores it
(mode, configuration.value, id). -/
structure CFRule where
  id : String
  mode : String
  value : String
deriving DecidableEq

/-- One tempBlocks[ip] record: { rule_id, timeout } (part_001 line 558). -/
structure Entry where
  rule_id : String
  timerId : Nat
deriving DecidableEq

/-- A pending setTimeout arising from the block_ip handler: the timeout
handle plus the values the callback closure captured at scheduling time
(the ip, the freshly created ruleId, and the delay in minutes). -/
structure Timer where
  id : Nat
  ip : String
  ruleId : String
  minutes : Nat
deriving DecidableEq

/-- Whole-system state of the ledger variant. -/
structure LedgerState where
  cfRules : List CFRule
  cfCounter : Nat
  tempBlocks : String → Option Entry
  liveTimers : List Timer
  timerCounter : Nat

/-- Fresh process: no backend rules, empty tempBlocks, no timers. -/
def initState : LedgerState :=
  { cfRules := [], cfCounter := 0, tempBlocks := fun _ => none,
    liveTimers := [], timerCounter := 0 }

/-- The opaque rule id the backend returns for the next created rule. -/
def freshRuleId (st : LedgerState) : String :=
  "cf-" ++ toString st.cfCounter

/-- CF.post("/firewall/access_rules/rules", {mode: "block", ...}):
the backend appends a block rule for ip and returns its id. -/
def installRule (st : LedgerState) (ip : String) : LedgerState × String :=
  ({ st with cfRules := st.cfRules ++ [⟨freshRuleId st, "block", ip⟩],
             cfCounter := st.cfCounter + 1 },
   freshRuleId st)

/-- CF.delete("/firewall/access_rules/rules/" + rid). -/
def deleteRuleById (st : LedgerState) (rid : String) : LedgerState :=
  { st with cfRules := st.cfRules.filter (fun r => r.id != rid) }

/-- clearTimeout: the timer with this handle is no longer pending. -/
def clearTimer (st : LedgerState) (tid : Nat) : LedgerState :=
  { st with liveTimers := st.liveTimers.filter (fun t => t.id != tid) }

/-- setTimeout of the expiry callback: arms a fresh timer and returns its
handle. -/
def armTimer (st : LedgerState) (ip ruleId : String) (minutes : Nat) :
    LedgerState × Nat :=
  ({ st with liveTimers := st.liveTimers ++ [⟨st.timerCounter, ip, ruleId, minutes⟩],
             timerCounter := st.timerCounter + 1 },
   st.timerCounter)

/-- tempBlocks[ip] = e. -/
def setEntry (st : LedgerState) (ip : String) (e : Entry) : LedgerState :=
  { st with tempBlocks := fun k => if k = ip then some e else st.tempBlocks k }

/-- delete tempBlocks[ip]. -/
def removeEntry (st : LedgerState) (ip : String) : LedgerState :=
  { st with tempBlocks := fun k => if k = ip then none else st.tempBlocks k }

/-- The block_ip handler of part_001 lines 524-588.

If block === true or the severity maps to a finite duration, a backend
rule is created; a finite duration additionally cancels the previous
timer for ip (if a ledger entry exists), arms a new expiry timer and
overwrites tempBlocks[ip]; severity high/critical with the flag yields a
permanent block (no timer); otherwise the request is skipped with no
backend call. -/
def blockIp (st : LedgerState) (ip severity : String) (blockFlag : Option Bool) :
    LedgerState × Response :=
  let tempMinutes := getTempBanMinutes severity
  if blockFlag == some true || tempMinutes > 0 then
    let inst := installRule st ip
    let st1 := inst.1
    let ruleId := inst.2
    if tempMinutes > 0 then
      let st2 := match st1.tempBlocks ip with
        | some e => clearTimer st1 e.timerId
        | none => st1
      let arm := armTimer st2 ip ruleId tempMinutes
      let st4 := setEntry arm.1 ip ⟨ruleId, arm.2⟩
      (st4, .tempBlockOk ip severity tempMinutes)
    else
      (st1, .permBlockOk ip severity)
  else
    (st, .skippedResp ip severity)

/-- The unblock_ip handler of part_001 lines 594-619: the backend rule
list is the source of truth; if no rule matches the ip, not_found;
otherwise the rule is deleted and, when a local ledger entry exists, its
timer is cancelled and the entry deleted. -/
def unblockIp (st : LedgerState) (ip : String) : LedgerState × Response :=
  match st.cfRules.find? (fun r => r.value == ip) with
  | none => (st, .notFoundResp)
  | some rule =>
    let st1 := deleteRuleById st rule.id
    let st2 := match st1.tempBlocks ip with
      | some e => removeEntry (clearTimer st1 e.timerId) ip
      | none => st1
    (st2, .unblockOk ip)

/-- The list_blocked handler of part_001 lines 625-637: block-mode rules
of the backend, mapped to their target values; the local ledger is not
consulted. -/
def listBlocked (st : LedgerState) : Response :=
  .listOk ((st.cfRules.filter (fun r => r.mode == "block")).map (fun r => r.value))

/-- The setTimeout expiry callback of part_001 lines 546-556, fired for
timer t: the timer leaves the pending set, the backend delete of the
ruleId captured at scheduling time is attempted (its failure swallowed by
the try/catch), and tempBlocks[ip] is deleted unconditionally - the
callback performs no comparison between the captured ruleId and the
rule_id currently recorded in the entry. -/
def fireTimer (st : LedgerState) (t : Timer) : LedgerState :=
  let st1 := { st with liveTimers := st.liveTimers.filter (fun u => u.id != t.id) }
  let st2 := deleteRuleById st1 t.ruleId
  removeEntry st2 t.ip

/-- The pending timers whose callback targets ip. -/
def timersFor (st : LedgerState) (ip : String) : List Timer :=
  st.liveTimers.filter (fun t => t.ip == ip)

/-- A sequence of block_ip calls for one ip, applied in order. -/
def runBlocks (st : LedgerState) (ip : String)
    (calls : List (String × Option Bool)) : LedgerState :=
  calls.foldl (fun s c => (blockIp s ip c.1 c.2).1) st

/-
Theorems for the spec claims.
-/

/-- C5: normalizeAction is a pure total function over the static alias
table of src/index.js: every alias of the table maps to its canonical
action, and every member of the canonical set (block, unblock,
list_blocked, restart, scale, rollback, drain, notify) is mapped to
itself (idempotence). -/
theorem normalizeAction_table_and_idempotent :
    (∀ p ∈ aliasTable, normalizeAction p.1 = p.2) ∧
    (∀ c ∈ canonicalActions, normalizeAction c = c) := by
  decide

/-- Witness for C5 at concrete inputs: the alias block_ip normalizes to
block, and the canonical action unblock is a fixed point. -/
theorem normalizeAction_table_and_idempotent_witness :
    normalizeAction "block_ip" = "block" ∧ normalizeAction "unblock" = "unblock" :=
  ⟨normalizeAction_table_and_idempotent.1 ("block_ip", "block") (by decide),
   normalizeAction_table_and_idempotent.2 "unblock" (by decide)⟩

/-- C6: the severity policy functions are total Lean functions (hence
deterministic and side-effect-free); getTempBanMinutes maps low to 1 unit
and medium to 2 units, and maps both high and critical to 0, the code's
encoding of a null duration (permanent, no auto-expiry: the block handler
arms a timer only when the value is positive); priorityFromSeverity maps
critical to Highest, high to High, medium to Medium, and every other
severity string to Low. -/
theorem severityPolicy_tables :
    getTempBanMinutes "low" = 1 ∧ getTempBanMinutes "medium" = 2 ∧
    getTempBanMinutes "high" = 0 ∧ getTempBanMinutes "critical" = 0 ∧
    priorityFromSeverity "critical" = "Highest" ∧
    priorityFromSeverity "high" = "High" ∧
    priorityFromSeverity "medium" = "Medium" ∧
    (∀ s : String, s ≠ "critical" → s ≠ "high" → s ≠ "medium" →
      priorityFromSeverity s = "Low") := by
  refine ⟨by decide, by decide, by decide, by decide, by decide, by decide, by decide, ?_⟩
  intro s h1 h2 h3
  simp [priorityFromSeverity, h1, h2, h3]

/-- Witness for C6: an unlisted severity string gets priority Low. -/
theorem severityPolicy_tables_witness : priorityFromSeverity "low" = "Low" :=
  severityPolicy_tables.2.2.2.2.2.2.2 "low" (by decide) (by decide) (by decide)

/-- C10: whenever any of action, severity, issue, description is absent
or falsy, the orchestrator of src/index.js returns the single 400 client
error naming all four fields, with an empty effect list: no collaborator
(enforcement backend, ticketing, notification) is invoked and the result
does not depend on the action (the check precedes normalizeAction and all
per-action target validation), including for actions such as list_blocked
and notify that require no target fields. -/
theorem handlePost_missing_field_client_error (req : Request)
    (cfResult jiraResult : Except String String) (slackResult : Except String Unit)
    (h : truthyS req.action = false ∨ truthyS req.severity = false ∨
         truthyS req.issue = false ∨ truthyS req.description = false) :
    handlePost req cfResult jiraResult slackResult =
      (.clientError "Missing required fields: action, severity, issue, description", []) := by
  rcases h with h | h | h | h <;> simp [handlePost, h]

/-- Witness for C10: a list_blocked request missing issue is rejected with
the four-field client error and no collaborator call. -/
theorem handlePost_missing_field_client_error_witness :
    handlePost ⟨some "list_blocked", some "low", none, some "d", ⟨none, none, none⟩, none⟩
        (.ok "cf-1") (.ok "JIRA-1") (.ok ()) =
      (.clientError "Missing required fields: action, severity, issue, description", []) :=
  handlePost_missing_field_client_error
    ⟨some "list_blocked", some "low", none, some "d", ⟨none, none, none⟩, none⟩
    (.ok "cf-1") (.ok "JIRA-1") (.ok ()) (Or.inr (Or.inr (Or.inl (by decide))))

/-- C9 counterexample: the claim says a request omitting severity is
accepted with severity defaulting to medium; on the code a notify request
with action, issue and description present but severity absent is
rejected with the 400 missing-fields client error and nothing is
processed. -/
theorem omitted_severity_rejected_cex :
    handlePost ⟨some "notify", none, some "cpu spike", some "page SRE", ⟨none, none, none⟩, none⟩
        (.ok "cf-1") (.ok "JIRA-1") (.ok ()) =
      (.clientError "Missing required fields: action, severity, issue, description", []) := by
  decide

/-- C9 amended: a RemediationRequest whose severity is absent or empty is
rejected by src/index.js with the single 400 client error naming action,
severity, issue, description, before any processing; no default of medium
is applied anywhere. -/
theorem omitted_severity_rejected (req : Request)
    (cfResult jiraResult : Except String String) (slackResult : Except String Unit)
    (h : truthyS req.severity = false) :
    handlePost req cfResult jiraResult slackResult =
      (.clientError "Missing required fields: action, severity, issue, description", []) := by
  simp [handlePost, h]

/-- Witness for amended C9: a block request with an empty severity string
is rejected. -/
theorem omitted_severity_rejected_witness :
    handlePost ⟨some "block", some "", some "i", some "d", ⟨some "1.2.3.4", none, none⟩, none⟩
        (.ok "cf-1") (.ok "JIRA-1") (.ok ()) =
      (.clientError "Missing required fields: action, severity, issue, description", []) :=
  omitted_severity_rejected
    ⟨some "block", some "", some "i", some "d", ⟨some "1.2.3.4", none, none⟩, none⟩
    (.ok "cf-1") (.ok "JIRA-1") (.ok ()) (by decide)

/-- C1: src/index.js normalizes unblock_ip to the canonical action
unblock (its alias map exists precisely to route such requests), yet its
dispatch has no unblock branch and no list_blocked branch: a well-formed
unblock request and a well-formed list_blocked request both fall through
to the 400 Unsupported-action response with no collaborator invoked,
while the Ledger implementation of part_001 does handle them (unblock of
an unknown ip answers not_found, and list_blocked answers the backend's
block-mode targets). -/
theorem unblock_and_list_blocked_unrouted :
    normalizeAction "unblock_ip" = "unblock" ∧
    handlePost ⟨some "unblock_ip", some "high", some "ip-sweep", some "remove block",
        ⟨some "203.0.113.7", none, none⟩, none⟩
        (.ok "cf-1") (.ok "JIRA-1") (.ok ()) =
      (.clientError "Unsupported action: unblock_ip", []) ∧
    normalizeAction "list_blocked" = "list_blocked" ∧
    handlePost ⟨some "list_blocked", some "low", some "audit", some "list rules",
        ⟨none, none, none⟩, none⟩
        (.ok "cf-1") (.ok "JIRA-1") (.ok ()) =
      (.clientError "Unsupported action: list_blocked", []) ∧
    (unblockIp initState "203.0.113.7").2 = .notFoundResp ∧
    listBlocked ⟨[⟨"r1", "block", "198.51.100.9"⟩, ⟨"r2", "challenge", "198.51.100.10"⟩],
        2, fun _ => none, [], 0⟩ = .listOk ["198.51.100.9"] := by
  refine ⟨by decide, by decide, by decide, by decide, ?_, ?_⟩
  · simp [unblockIp, initState]
  · simp [listBlocked]

/-- A ledger state used to exercise the expiry callback on a stale
capture: the entry for 203.0.113.1 records rule R2, while a pending timer
still holds the older capture R1. -/
def staleCaptureState : LedgerState :=
  { cfRules := [⟨"R1", "block", "203.0.113.1"⟩, ⟨"R2", "block", "203.0.113.1"⟩],
    cfCounter := 2,
    tempBlocks := fun k => if k = "203.0.113.1" then some ⟨"R2", 7⟩ else none,
    liveTimers := [⟨0, "203.0.113.1", "R1", 1⟩],
    timerCounter := 8 }

/-- C3 counterexample: the claim says the expiry handler acts only after
checking that the ruleId it captured at scheduling time is still the one
recorded in the entry, and does nothing on a mismatch.  In the code the
callback has no such guard: fired with capture R1 while the entry for the
ip records R2, it still deletes rule R1 from the backend and deletes the
ledger entry. -/
theorem fireTimer_no_ruleId_guard_cex :
    staleCaptureState.tempBlocks "203.0.113.1" = some ⟨"R2", 7⟩ ∧
    (fireTimer staleCaptureState ⟨0, "203.0.113.1", "R1", 1⟩).tempBlocks "203.0.113.1" = none ∧
    (fireTimer staleCaptureState ⟨0, "203.0.113.1", "R1", 1⟩).cfRules =
      [⟨"R2", "block", "203.0.113.1"⟩] := by
  refine ⟨by simp [staleCaptureState], ?_, ?_⟩
  · simp [fireTimer, removeEntry, deleteRuleById, staleCaptureState]
  · simp [fireTimer, removeEntry, deleteRuleById, staleCaptureState]

/-- C3 amended: when an armed expiry fires for target ip, the handler
unconditionally attempts removal of the remote rule whose id it captured
at scheduling time (a backend failure being swallowed) and deletes the
ledger entry for ip, performing no check that the entry still references
that ruleId; the fired timer itself leaves the pending set. -/
theorem fireTimer_unconditional (st : LedgerState) (t : Timer) :
    (fireTimer st t).tempBlocks t.ip = none ∧
    (fireTimer st t).cfRules = st.cfRules.filter (fun r => r.id != t.ruleId) ∧
    (fireTimer st t).liveTimers = st.liveTimers.filter (fun u => u.id != t.id) := by
  refine ⟨?_, rfl, rfl⟩
  simp [fireTimer, removeEntry, deleteRuleById]

/-- C4 counterexample: the claim says a block with severity critical and
no explicit flag installs the backend rule unconditionally and answers
success with permanent true; on the ledger code that request takes the
skipped branch: the response status is skipped, the backend is never
called and the state is untouched. -/
theorem blockIp_critical_no_flag_cex :
    (blockIp initState "203.0.113.1" "critical" none).2 =
      .skippedResp "203.0.113.1" "critical" ∧
    (blockIp initState "203.0.113.1" "critical" none).1.cfRules = [] ∧
    (blockIp initState "203.0.113.1" "critical" none).1.liveTimers = [] := by
  refine ⟨by decide, by decide, by decide⟩

/-- C4 amended: for a block request with severity critical the ledger
installs the backend rule only when the explicit flag is true; without
the flag it returns status skipped, touching nothing.  With the flag set,
exactly one rule is installed, no expiry timer is armed, the ledger map
is untouched, and the response is the permanent-block success carrying
permanent: true. -/
theorem blockIp_critical_requires_flag (st : LedgerState) (ip : String) :
    blockIp st ip "critical" none = (st, .skippedResp ip "critical") ∧
    blockIp st ip "critical" (some false) = (st, .skippedResp ip "critical") ∧
    (blockIp st ip "critical" (some true)).2 = .permBlockOk ip "critical" ∧
    (blockIp st ip "critical" (some true)).1.cfRules =
      st.cfRules ++ [⟨freshRuleId st, "block", ip⟩] ∧
    (blockIp st ip "critical" (some true)).1.liveTimers = st.liveTimers ∧
    (blockIp st ip "critical" (some true)).1.tempBlocks = st.tempBlocks := by
  refine ⟨?_, ?_, ?_, ?_, ?_, ?_⟩ <;>
    simp [blockIp, installRule, getTempBanMinutes]

/-- The ticket summary string each approval branch of src/index.js builds
for its createJiraTicket call. -/
def approvalSummary (action service : String) : String :=
  (if action == "restart" then "[ThreatPilot] Restart Service "
   else if action == "scale" then "[ThreatPilot] Scale Service "
   else if action == "rollback" then "[ThreatPilot] Rollback Service "
   else "[ThreatPilot] Drain Service ") ++ service

/-- C8: for every approval-routed action (restart, scale, rollback,
drain) with target.service present, the orchestrator's only collaborator
call is the ticket creation (no enforcement-backend call, no
notification, no remediation): when the ticketing collaborator returns a
key, the response is pending_approval carrying exactly that ticket
reference (hence non-empty whenever the reference is), and when ticket
creation fails the error message propagates unchanged as the server
error, so the action never reports success without a ticket. -/
theorem approval_actions_ticket_only (raw sev iss desc svc : String)
    (repl : Option Nat) (k m : String)
    (hraw : raw ≠ "") (hsev : sev ≠ "") (hiss : iss ≠ "") (hdesc : desc ≠ "")
    (hsvc : svc ≠ "")
    (ha : normalizeAction raw = "restart" ∨ normalizeAction raw = "scale" ∨
          normalizeAction raw = "rollback" ∨ normalizeAction raw = "drain")
    (cfResult : Except String String) (slackResult : Except String Unit) :
    handlePost ⟨some raw, some sev, some iss, some desc, ⟨none, some svc, repl⟩, none⟩
        cfResult (.ok k) slackResult =
      (.pendingApproval (normalizeAction raw) svc
         (if normalizeAction raw == "scale" then repl else none) k,
       [.jiraCreate (approvalSummary (normalizeAction raw) svc) (priorityFromSeverity sev)]) ∧
    handlePost ⟨some raw, some sev, some iss, some desc, ⟨none, some svc, repl⟩, none⟩
        cfResult (.error m) slackResult =
      (.serverError m,
       [.jiraCreate (approvalSummary (normalizeAction raw) svc) (priorityFromSeverity sev)]) := by
  have h1 : (raw != "") = true := by simp [hraw]
  have h2 : (sev != "") = true := by simp [hsev]
  have h3 : (iss != "") = true := by simp [hiss]
  have h4 : (desc != "") = true := by simp [hdesc]
  have h5 : (svc != "") = true := by simp [hsvc]
  rcases ha with ha | ha | ha | ha <;>
    constructor <;>
      simp [handlePost, truthyS, h1, h2, h3, h4, h5, ha, approvalSummary]

/-- Witness for C8: a drain of service checkout with severity high and a
ticketing collaborator answering OPS-42 yields pending_approval with that
ticket and only the ticket-creation effect; a failing collaborator
propagates its message. -/
theorem approval_actions_ticket_only_witness :
    handlePost ⟨some "drain", some "high", some "X", some "Y",
        ⟨none, some "checkout", none⟩, none⟩
        (.ok "cf-9") (.ok "OPS-42") (.ok ()) =
      (.pendingApproval (normalizeAction "drain") "checkout"
         (if normalizeAction "drain" == "scale" then none else none) "OPS-42",
       [.jiraCreate (approvalSummary (normalizeAction "drain") "checkout")
          (priorityFromSeverity "high")]) ∧
    handlePost ⟨some "drain", some "high", some "X", some "Y",
        ⟨none, some "checkout", none⟩, none⟩
        (.ok "cf-9") (.error "jira down") (.ok ()) =
      (.serverError "jira down",
       [.jiraCreate (approvalSummary (normalizeAction "drain") "checkout")
          (priorityFromSeverity "high")]) :=
  approval_actions_ticket_only "drain" "high" "X" "Y" "checkout" none "OPS-42" "jira down"
    (by decide) (by decide) (by decide) (by decide) (by decide)
    (Or.inr (Or.inr (Or.inr (by decide)))) (.ok "cf-9") (.ok ())

/-- C7: from a fresh ledger, block(ip, low) answers the temporary-block
success with the 1-minute duration; an unblock(ip) issued before that
expiry answers success, removes the remote rule (the backend rule list
becomes empty), deletes the ledger entry for ip and cancels its timer (no
live timer remains); a subsequent unblock(ip) answers not_found - a
success-shaped outcome, not an error - and changes nothing. -/
theorem blockLow_unblock_roundTrip (ip : String) :
    (blockIp initState ip "low" none).2 = .tempBlockOk ip "low" 1 ∧
    (unblockIp (blockIp initState ip "low" none).1 ip).2 = .unblockOk ip ∧
    (unblockIp (blockIp initState ip "low" none).1 ip).1.cfRules = [] ∧
    (unblockIp (blockIp initState ip "low" none).1 ip).1.tempBlocks ip = none ∧
    (unblockIp (blockIp initState ip "low" none).1 ip).1.liveTimers = [] ∧
    (unblockIp (unblockIp (blockIp initState ip "low" none).1 ip).1 ip).2 = .notFoundResp ∧
    (unblockIp (unblockIp (blockIp initState ip "low" none).1 ip).1 ip).1 =
      (unblockIp (blockIp initState ip "low" none).1 ip).1 := by
  refine ⟨?_, ?_, ?_, ?_, ?_, ?_, ?_⟩ <;>
    simp [blockIp, unblockIp, installRule, armTimer, setEntry, removeEntry,
      clearTimer, deleteRuleById, initState, getTempBanMinutes, freshRuleId]

/-- Timer-ledger coherence for one target: when no tempBlocks entry exists
for ip there is no pending timer for ip, and when an entry exists there
is at most one pending timer for ip and its handle is the one the entry
records. -/
def LedgerInv (st : LedgerState) (ip : String) : Prop :=
  match st.tempBlocks ip with
  | none => timersFor st ip = []
  | some e => timersFor st ip = [] ∨
      ∃ t : Timer, timersFor st ip = [t] ∧ t.id = e.timerId

theorem initState_inv (ip : String) : LedgerInv initState ip := by
  simp [LedgerInv, initState, timersFor]

theorem timersFor_clearTimer (st : LedgerState) (tid : Nat) (ip : String) :
    timersFor (clearTimer st tid) ip =
      (timersFor st ip).filter (fun t => t.id != tid) := by
  simp only [timersFor, clearTimer, List.filter_filter]
  congr 1
  funext t
  exact Bool.and_comm _ _

theorem timersFor_armTimer (st : LedgerState) (ip ruleId : String) (m : Nat)
    (ip' : String) :
    timersFor (armTimer st ip ruleId m).1 ip' =
      timersFor st ip' ++
        (if ip == ip' then [⟨st.timerCounter, ip, ruleId, m⟩] else []) := by
  simp only [timersFor, armTimer, List.filter_append]
  congr 1
  by_cases h : ip = ip' <;> simp [h]

theorem timersFor_installRule (st : LedgerState) (ip ip' : String) :
    timersFor (installRule st ip).1 ip' = timersFor st ip' := rfl

theorem tempBlocks_installRule (st : LedgerState) (ip ip' : String) :
    (installRule st ip).1.tempBlocks ip' = st.tempBlocks ip' := rfl

theorem timer_filter_comm (l : List Timer) (p q : Timer → Bool) :
    (l.filter p).filter q = (l.filter q).filter p := by
  rw [List.filter_filter, List.filter_filter]
  congr 1
  funext t
  exact Bool.and_comm _ _

/-- A block_ip call whose severity maps to no finite duration (high or
critical) changes neither the pending timers nor the ledger map, whether
it installs a permanent rule or is skipped. -/
theorem blockIp_notemp_state (st : LedgerState) (ip sev : String)
    (flag : Option Bool) (h0 : getTempBanMinutes sev = 0) :
    (blockIp st ip sev flag).1.liveTimers = st.liveTimers ∧
    (blockIp st ip sev flag).1.tempBlocks = st.tempBlocks := by
  by_cases hf : (flag == some true) = true <;>
    simp [blockIp, h0, hf, installRule]

/-- The pending timers after a finite-duration block_ip call: the timer
recorded by the previous entry for ip (if any) is cancelled, and the
freshly armed timer - capturing the new rule id and the new duration -
is appended. -/
theorem blockIp_temp_liveTimers (st : LedgerState) (ip sev : String)
    (flag : Option Bool) (hm : 0 < getTempBanMinutes sev) :
    (blockIp st ip sev flag).1.liveTimers =
      (match st.tempBlocks ip with
       | some e => st.liveTimers.filter (fun t => t.id != e.timerId)
       | none => st.liveTimers) ++
      [⟨st.timerCounter, ip, freshRuleId st, getTempBanMinutes sev⟩] := by
  have hc : (flag == some true || decide (getTempBanMinutes sev > 0)) = true := by
    simp [hm]
  cases hst : st.tempBlocks ip with
  | none =>
    simp [blockIp, hc, hm, setEntry, armTimer, clearTimer, installRule, hst]
  | some e =>
    simp [blockIp, hc, hm, setEntry, armTimer, clearTimer, installRule, hst]

/-- The ledger map after a finite-duration block_ip call: the entry for
ip is overwritten with the fresh rule id and the fresh timer handle;
other targets are untouched. -/
theorem blockIp_temp_tempBlocks (st : LedgerState) (ip sev : String)
    (flag : Option Bool) (hm : 0 < getTempBanMinutes sev) (ip' : String) :
    (blockIp st ip sev flag).1.tempBlocks ip' =
      if ip' = ip then some ⟨freshRuleId st, st.timerCounter⟩
      else st.tempBlocks ip' := by
  have hc : (flag == some true || decide (getTempBanMinutes sev > 0)) = true := by
    simp [hm]
  cases hst : st.tempBlocks ip with
  | none =>
    simp [blockIp, hc, hm, setEntry, armTimer, clearTimer, installRule, hst]
  | some e =>
    simp [blockIp, hc, hm, setEntry, armTimer, clearTimer, installRule, hst]

theorem filtered_option_singleton (l : List Timer) (p : Timer → Bool) (n : Nat)
    (h : l = [] ∨ ∃ t : Timer, l = [t] ∧ t.id = n) :
    l.filter p = [] ∨ ∃ t : Timer, l.filter p = [t] ∧ t.id = n := by
  rcases h with h | ⟨t, ht, hid⟩
  · left; simp [h]
  · by_cases hp : p t = true
    · right; exact ⟨t, by simp [ht, hp], hid⟩
    · left; simp [ht, List.filter, hp]

/-- One block_ip call preserves the timer-ledger coherence of every
target. -/
theorem blockIp_preserves_inv (st : LedgerState) (ip sev : String)
    (flag : Option Bool) (ip' : String) (h : LedgerInv st ip') :
    LedgerInv (blockIp st ip sev flag).1 ip' := by
  by_cases hm : 0 < getTempBanMinutes sev
  case neg =>
    have h0 : getTempBanMinutes sev = 0 := by omega
    obtain ⟨hl, ht⟩ := blockIp_notemp_state st ip sev flag h0
    unfold LedgerInv timersFor at h ⊢
    rw [hl, ht]
    exact h
  case pos =>
    have hl := blockIp_temp_liveTimers st ip sev flag hm
    have ht := blockIp_temp_tempBlocks st ip sev flag hm ip'
    unfold LedgerInv
    rw [ht]
    by_cases hip : ip' = ip
    · subst hip
      simp only [if_pos rfl]
      right
      refine ⟨⟨st.timerCounter, ip', freshRuleId st, getTempBanMinutes sev⟩, ?_, rfl⟩
      unfold timersFor
      rw [hl, List.filter_append]
      have hpre : (match st.tempBlocks ip' with
          | some e => st.liveTimers.filter (fun t : Timer => t.id != e.timerId)
          | none => st.liveTimers).filter (fun t : Timer => t.ip == ip') = [] := by
        unfold LedgerInv timersFor at h
        cases hst : st.tempBlocks ip' with
        | none =>
          rw [hst] at h
          exact h
        | some e =>
          rw [hst] at h
          rw [timer_filter_comm]
          rcases h with h | ⟨t, ht2, hid⟩
          · rw [h]; rfl
          · rw [ht2]; simp [hid]
      rw [hpre]
      simp
    · simp only [if_neg hip]
      unfold timersFor
      rw [hl, List.filter_append]
      have hnew : (([⟨st.timerCounter, ip, freshRuleId st, getTempBanMinutes sev⟩] :
          List Timer).filter (fun t : Timer => t.ip == ip')) = [] := by
        have : (ip == ip') = false := by
          simp only [beq_eq_false_iff_ne, ne_eq]
          intro hcontra
          exact hip hcontra.symm
        simp [this]
      rw [hnew, List.append_nil]
      unfold LedgerInv timersFor at h
      cases hst : st.tempBlocks ip' with
      | none =>
        rw [hst] at h
        cases hstb : st.tempBlocks ip with
        | none => exact h
        | some e =>
          rw [timer_filter_comm, h]
          rfl
      | some e2 =>
        rw [hst] at h
        cases hstb : st.tempBlocks ip with
        | none => exact h
        | some e =>
          rw [timer_filter_comm]
          exact filtered_option_singleton _ _ _ h

theorem length_le_one_of_inv (st : LedgerState) (ip : String)
    (h : LedgerInv st ip) : (timersFor st ip).length ≤ 1 := by
  unfold LedgerInv at h
  cases hcase : st.tempBlocks ip with
  | none => rw [hcase] at h; simp [h]
  | some e =>
    rw [hcase] at h
    rcases h with h | ⟨t, ht, _⟩
    · simp [h]
    · simp [ht]

theorem runBlocks_preserves_inv (st : LedgerState) (ip : String)
    (calls : List (String × Option Bool)) (ip' : String)
    (h : LedgerInv st ip') : LedgerInv (runBlocks st ip calls) ip' := by
  induction calls generalizing st with
  | nil => exact h
  | cons c cs ih =>
    exact ih (blockIp st ip c.1 c.2).1 (blockIp_preserves_inv st ip c.1 c.2 ip' h)

/-- A block_ip call with a finite duration leaves exactly one pending
timer for its target: the freshly armed one, carrying that duration. -/
theorem blockIp_temp_timersFor (st : LedgerState) (ip sev : String)
    (flag : Option Bool) (h : LedgerInv st ip)
    (hm : 0 < getTempBanMinutes sev) :
    timersFor (blockIp st ip sev flag).1 ip =
      [⟨st.timerCounter, ip, freshRuleId st, getTempBanMinutes sev⟩] := by
  unfold timersFor
  rw [blockIp_temp_liveTimers st ip sev flag hm, List.filter_append]
  have hpre : (match st.tempBlocks ip with
      | some e => st.liveTimers.filter (fun t : Timer => t.id != e.timerId)
      | none => st.liveTimers).filter (fun t : Timer => t.ip == ip) = [] := by
    unfold LedgerInv timersFor at h
    cases hst : st.tempBlocks ip with
    | none =>
      rw [hst] at h
      exact h
    | some e =>
      rw [hst] at h
      rw [timer_filter_comm]
      rcases h with h | ⟨t, ht2, hid⟩
      · rw [h]; rfl
      · rw [ht2]; simp [hid]
  rw [hpre]
  simp


/-- C2 counterexample: after the one-call sequence
block(203.0.113.1, critical, explicit flag true) the pending-timer list
for that ip is empty - not the exactly-one-live-timer the claim asserts
after every sequence (a permanent block arms no timer and cancels
nothing). -/
theorem blockSequence_single_timer_cex :
    timersFor (runBlocks initState "203.0.113.1" [("critical", some true)])
      "203.0.113.1" = [] := by
  decide

/-- C2 amended: for every target and every finite sequence of block calls
with no intervening unblock, at most one ledger entry exists per target
(tempBlocks is a key-unique object, one Option value per ip) and at most
one live expiry timer exists per target at every point; and when the most
recent call carries a finite duration (severity low or medium), exactly
one timer is live afterwards and it reflects that call's duration, the
previous timer having been cancelled before the new one was armed.
(When the final call is permanent or skipped the timer state is simply
whatever the earlier calls left, which the counterexample shows can be
empty.) -/
theorem blockSequence_single_timer (ip ip' : String)
    (calls : List (String × Option Bool)) (sev : String) (flag : Option Bool) :
    (timersFor (runBlocks initState ip calls) ip').length ≤ 1 ∧
    (0 < getTempBanMinutes sev →
      ∃ t : Timer,
        timersFor (runBlocks initState ip (calls ++ [(sev, flag)])) ip = [t] ∧
        t.minutes = getTempBanMinutes sev) := by
  constructor
  · exact length_le_one_of_inv _ _
      (runBlocks_preserves_inv initState ip calls ip' (initState_inv ip'))
  · intro hm
    have h := runBlocks_preserves_inv initState ip calls ip (initState_inv ip)
    have hsplit : runBlocks initState ip (calls ++ [(sev, flag)]) =
        (blockIp (runBlocks initState ip calls) ip sev flag).1 := by
      simp [runBlocks, List.foldl_append]
    rw [hsplit]
    exact ⟨_, blockIp_temp_timersFor _ ip sev flag h hm, rfl⟩

/-- Witness for amended C2: after block(low) then block(medium) for the
same ip, exactly one timer is pending and it carries the 2-minute
duration of the last call. -/
theorem blockSequence_single_timer_witness :
    (timersFor (runBlocks initState "203.0.113.1" [("low", none)]) "203.0.113.1").length ≤ 1 ∧
    (0 < getTempBanMinutes "medium" →
      ∃ t : Timer,
        timersFor (runBlocks initState "203.0.113.1" [("low", none), ("medium", none)])
          "203.0.113.1" = [t] ∧
        t.minutes = getTempBanMinutes "medium") :=
  blockSequence_single_timer "203.0.113.1" "203.0.113.1" [("low", none)] "medium" none

end ThreatPilot
